import Mathlib

/-!
Verification of `animation.py` (`plot_anim`)

A shallow embedding of the single-function animation wrapper in
`src/animation.py`.  The function `plot_anim` wraps matplotlib's
`FuncAnimation`: it builds a fixed domain with `np.linspace`, asks a
caller-supplied generator for successive range arrays, drives a single
line artist through an init step and a per-frame update step, and either
saves an animated gif (named after the generator) or returns an HTML5
video wrapper.

Modelling decisions (external collaborators, per their documented
behaviour, since only the adapter itself is repository code):

* `np.linspace(start, stop, num)` (endpoint=True, the default used at
  line 44): `num = 0` gives an empty array, `num = 1` gives `[start]`,
  and for `num ≥ 2` entry `i` is `start + i*(stop-start)/(num-1)` with
  the final entry landing exactly on `stop`.  Real numbers are modelled
  as `ℚ`.
* A matplotlib `Line2D` whose x-data and y-data have different lengths
  raises `ValueError` when the line is drawn (`recache`); equal lengths
  (including both empty) draw fine.  `set_data` itself never validates.
* `FuncAnimation(fig, animate, init_func=..., save_count=max_frames,
  frames=g, ...)`: when the animation is rendered (`save` or
  `to_html5_video`), the engine calls the init step once, then pulls at
  most `save_count` frames from the generator, calling the update step
  and drawing after each.  Frames beyond `save_count` are never pulled.
* `ax.set_xlim` with identical limits warns and auto-expands but does
  not raise; `np.linspace(a, a, m)` is a constant array.  Neither is an
  error.
* `rc("animation", html="html5")` mutates matplotlib's process-global
  `rcParams["animation.html"]`; the mutation outlives the call.  We
  thread this one global explicitly: `plot_anim` receives the incoming
  value and reports the value left behind.
* Exceptions are modelled by `Except String`: the generator itself may
  fail while being consumed, and drawing may fail; the adapter has no
  try/except, so every failure propagates as-is.

The generator is lazy in Python, so line 45 (`g = frame_gen(x)`) cannot
fail by itself; both producer failures and draw failures surface inside
`anim.save` / `anim.to_html5_video`, which run after `plt.close()`.
-/

/-- Embedding of `np.linspace xlim[0] xlim[1] n` at line 44, over `ℚ`. -/
def linspace (start stop : ℚ) (num : ℕ) : List ℚ :=
  if num = 1 then [start]
  else (List.range num).map
    (fun i : ℕ => start + (i : ℚ) * (stop - start) / ((num : ℚ) - 1))

/-- The caller-supplied `frame_gen`: its `__name__` plus the finite list of
range arrays it yields for a given domain (or the failure it raises while
being consumed).  Python generators are single-pass; one call of `gen`
models one full consumption. -/
structure FrameGen where
  name : String
  gen : List ℚ → Except String (List (List ℚ))

/-- The figure built at lines 48-56: fixed axis bounds, optional
decorations (applied under Python truthiness at lines 51-53), one line
artist, and whether `plt.close()` has run. -/
structure PlotState where
  xlimit : ℚ × ℚ
  ylimit : ℚ × ℚ
  titleText : Option String
  xlabelText : Option String
  ylabelText : Option String
  lineData : List ℚ × List ℚ
  closed : Bool
deriving DecidableEq, Repr

/-- Python truthiness of an optional string argument, as tested by
`if title:` at lines 51-53: `None` and `""` are falsy, everything else
truthy. -/
def truthyStr : Option String → Option String
  | some s => if s = "" then none else some s
  | none => none

/-- The `init_frame` closure at lines 59-61: clear the line to empty data and return
the 1-tuple of changed artists `(line,)`.  First component: the line's
new data; second: the changed-artist list handed to the blitting engine. -/
def init_frame : (List ℚ × List ℚ) × List (List ℚ × List ℚ) :=
  ((([] : List ℚ), ([] : List ℚ)), [(([] : List ℚ), ([] : List ℚ))])

/-- The `animate` closure at lines 64-66: set the line's data to `(x, y)` and return
`(line,)` as the changed-artist list. -/
def animate (x y : List ℚ) : (List ℚ × List ℚ) × List (List ℚ × List ℚ) :=
  ((x, y), [(x, y)])

/-- Drawing a `Line2D`: matplotlib's `recache` raises `ValueError` when
the x and y arrays have different lengths; otherwise the drawn frame is
the line's data. -/
def drawLine (l : List ℚ × List ℚ) : Except String (List ℚ × List ℚ) :=
  if l.1.length = l.2.length then .ok l
  else .error ("x and y must have same first dimension")

/-- The engine's frame loop: for each pulled range array run the update
step `animate` and draw the resulting line, stopping at the first
failure. -/
def renderFrames (x : List ℚ) : List (List ℚ) → Except String (List (List ℚ × List ℚ))
  | [] => .ok []
  | y :: ys =>
    match drawLine (animate x y).1 with
    | .error e => .error e
    | .ok f =>
      match renderFrames x ys with
      | .error e => .error e
      | .ok fs => .ok (f :: fs)

/-- Rendering the whole animation (`anim.save` / `anim.to_html5_video`):
consume the generator, draw the init frame once, then draw at most
`max_frames` (= `save_count`) update frames. -/
def renderAnimation (fg : FrameGen) (x : List ℚ) (max_frames : ℕ) :
    Except String (List (List ℚ × List ℚ)) :=
  match fg.gen x with
  | .error e => .error e
  | .ok fs =>
    match drawLine init_frame.1 with
    | .error e => .error e
    | .ok _ => renderFrames x (fs.take max_frames)

/-- A gif file written by `anim.save(frame_gen.__name__+".gif", writer="imagemagick")` at line 78. -/
structure GifFile where
  path : String
  writer : String
  frames : List (List ℚ × List ℚ)
deriving DecidableEq, Repr

/-- Everything observable after a successful call: the domain handed to
the producer, the final figure, the HTML5 video returned (non-gif path),
the files written (gif path), the frame interval forwarded to the
engine, and the value matplotlib's global `animation.html` rc setting
holds after the call. -/
structure AnimOutput where
  domain : List ℚ
  fig : PlotState
  video : Option (List (List ℚ × List ℚ))
  files : List GifFile
  intervalMs : ℕ
  rcAnimationHtml : String
deriving DecidableEq, Repr

/-- The adapter `plot_anim` (lines 15-83).  Parameters follow the Python signature;
`rcAnimationHtml` is the incoming value of matplotlib's process-global
`rcParams["animation.html"]` (default `"none"`), threaded explicitly
because line 81 mutates it. -/
def plot_anim (frame_gen : FrameGen) (xlim ylim : ℚ × ℚ) (n : ℕ)
    (delay : ℕ) (max_frames : ℕ) (title xlabel ylabel : Option String)
    (gif : Bool) (rcAnimationHtml : String) : Except String AnimOutput :=
  -- line 44: domain points that remain fixed
  let x := linspace xlim.1 xlim.2 n
  -- lines 48-56: figure with fixed zoom, optional decorations, empty line
  let fig : PlotState :=
    { xlimit := xlim, ylimit := ylim,
      titleText := truthyStr title,
      xlabelText := truthyStr xlabel,
      ylabelText := truthyStr ylabel,
      lineData := (([] : List ℚ), ([] : List ℚ)),
      closed := false }
  -- line 74: plt.close() runs before either output path renders
  let fig := { fig with closed := true }
  if gif then
    -- line 78: anim.save(frame_gen.__name__+".gif", writer="imagemagick")
    match renderAnimation frame_gen x max_frames with
    | .error e => .error e
    | .ok dfs =>
      .ok { domain := x, fig := fig, video := none,
            files := [{ path := frame_gen.name ++ ".gif",
                        writer := "imagemagick", frames := dfs }],
            intervalMs := delay, rcAnimationHtml := rcAnimationHtml }
  else
    -- line 81 sets the global rc to "html5"; line 83 returns the HTML wrapper
    match renderAnimation frame_gen x max_frames with
    | .error e => .error e
    | .ok dfs =>
      .ok { domain := x, fig := fig, video := some dfs, files := [],
            intervalMs := delay, rcAnimationHtml := "html5" }

/-- Returns `true` exactly on `Except.error`. -/
def isError {α : Type} : Except String α → Bool
  | .error _ => true
  | .ok _ => false

/-- Concrete producer: two frames, each a copy of the domain (so lengths
always match). -/
def waveGen : FrameGen :=
  { name := "waveGen", gen := fun x => .ok [x, x] }

/-- Concrete producer: a single frame of length 1, regardless of the
domain. -/
def badLenGen : FrameGen :=
  { name := "badLenGen", gen := fun _ => .ok [[0]] }

/-- Concrete producer: a good frame of length 2 followed by a bad frame
of length 1. -/
def lateBadGen : FrameGen :=
  { name := "lateBadGen", gen := fun _ => .ok [[0, 1], [9]] }

/-- Concrete producer that fails while being consumed. -/
def failGen : FrameGen :=
  { name := "failGen", gen := fun _ => .error ("boom") }

/-- Concrete producer: two empty frames (matches an empty domain). -/
def emptyFramesGen : FrameGen :=
  { name := "emptyFramesGen", gen := fun _ => .ok [[], []] }

/-- Concrete producer: one constant frame of length 5. -/
def constFiveGen : FrameGen :=
  { name := "constFiveGen", gen := fun _ => .ok [[1, 1, 1, 1, 1]] }

/-! ## Helper lemmas -/

theorem linspace_length (a b : ℚ) (n : ℕ) : (linspace a b n).length = n := by
  unfold linspace
  split
  · simp [*]
  · simp

theorem linspace_get (a b : ℚ) (n : ℕ) (h2 : 2 ≤ n) (i : ℕ)
    (hi : i < (linspace a b n).length) :
    (linspace a b n).get ⟨i, hi⟩ = a + i * (b - a) / ((n : ℚ) - 1) := by
  have hn1 : ¬ n = 1 := by omega
  have he : linspace a b n = (List.range n).map
      (fun i : ℕ => a + (i : ℚ) * (b - a) / ((n : ℚ) - 1)) := by
    rw [linspace, if_neg hn1]
  rw [List.get_of_eq he]
  simp [List.get_eq_getElem]

theorem linspace_single (a b : ℚ) : linspace a b 1 = [a] := by
  simp [linspace]

theorem linspace_empty (a b : ℚ) : linspace a b 0 = [] := by
  simp [linspace]

theorem linspace_const (a : ℚ) (m : ℕ) : linspace a a m = List.replicate m a := by
  unfold linspace
  split
  · simp [*]
  · have : (fun i : ℕ => a + (i : ℚ) * (a - a) / ((m : ℚ) - 1)) = fun _ : ℕ => a := by
      funext i; simp
    rw [this, List.map_const', List.length_range]

theorem drawLine_ok (l f : List ℚ × List ℚ) (h : drawLine l = .ok f) : f = l := by
  unfold drawLine at h
  split at h
  · exact (Except.ok.injEq _ _).mp h.symm ▸ rfl
  · cases h

theorem drawLine_init : drawLine init_frame.1 = .ok (([] : List ℚ), ([] : List ℚ)) := rfl

theorem renderFrames_ok (x : List ℚ) (fs : List (List ℚ))
    (h : ∀ y ∈ fs, y.length = x.length) :
    renderFrames x fs = .ok (fs.map fun y => (x, y)) := by
  induction fs with
  | nil => rfl
  | cons y ys ih =>
    have hy : y.length = x.length := h y (by simp)
    have ihe := ih (fun z hz => h z (by simp [hz]))
    simp [renderFrames, drawLine, animate, hy, ihe]

theorem renderFrames_err (x y : List ℚ) (fs : List (List ℚ))
    (hy : y ∈ fs) (h : y.length ≠ x.length) :
    isError (renderFrames x fs) = true := by
  induction fs with
  | nil => cases hy
  | cons z zs ih =>
    rcases List.mem_cons.mp hy with h1 | h2
    · subst h1
      have hxz : ¬ x.length = y.length := fun hc => h hc.symm
      simp [renderFrames, drawLine, animate, hxz, isError]
    · by_cases hz : x.length = z.length
      · have := ih h2
        cases hr : renderFrames x zs with
        | error e => simp [renderFrames, drawLine, animate, hz, hr, isError]
        | ok fs' => rw [hr] at this; simp [isError] at this
      · simp [renderFrames, drawLine, animate, hz, isError]

theorem renderFrames_fst (x : List ℚ) (fs : List (List ℚ))
    (dfs : List (List ℚ × List ℚ)) (h : renderFrames x fs = .ok dfs) :
    ∀ p ∈ dfs, p.1 = x := by
  induction fs generalizing dfs with
  | nil =>
    simp only [renderFrames] at h
    cases h
    intro p hp
    cases hp
  | cons y ys ih =>
    simp only [renderFrames] at h
    cases hd : drawLine (animate x y).1 with
    | error e => rw [hd] at h; cases h
    | ok f =>
      rw [hd] at h
      cases hr : renderFrames x ys with
      | error e => rw [hr] at h; cases h
      | ok fs' =>
        rw [hr] at h
        cases h
        intro p hp
        rcases List.mem_cons.mp hp with h1 | h2
        · subst h1
          have := drawLine_ok _ _ hd
          simp [this, animate]
        · exact ih fs' hr p h2

theorem renderAnimation_gen_err (fg : FrameGen) (x : List ℚ) (mf : ℕ) (e : String)
    (h : fg.gen x = .error e) : renderAnimation fg x mf = .error e := by
  simp [renderAnimation, h]

theorem renderAnimation_gen_ok (fg : FrameGen) (x : List ℚ) (mf : ℕ)
    (fs : List (List ℚ)) (h : fg.gen x = .ok fs) :
    renderAnimation fg x mf = renderFrames x (fs.take mf) := by
  simp [renderAnimation, h, drawLine_init]

theorem renderAnimation_fst (fg : FrameGen) (x : List ℚ) (mf : ℕ)
    (dfs : List (List ℚ × List ℚ)) (h : renderAnimation fg x mf = .ok dfs) :
    ∀ p ∈ dfs, p.1 = x := by
  cases hg : fg.gen x with
  | error e => rw [renderAnimation_gen_err fg x mf e hg] at h; cases h
  | ok fs =>
    rw [renderAnimation_gen_ok fg x mf fs hg] at h
    exact renderFrames_fst x (fs.take mf) dfs h

/-- Shape of every successful call: the rendered frames determine the
output, the figure is the decorated-and-closed one, and the output path
is selected by `gif`. -/
theorem plot_anim_ok_elim (fg : FrameGen) (xlim ylim : ℚ × ℚ) (n delay mf : ℕ)
    (t xl yl : Option String) (gif : Bool) (rc : String) (out : AnimOutput)
    (h : plot_anim fg xlim ylim n delay mf t xl yl gif rc = .ok out) :
    ∃ dfs, renderAnimation fg (linspace xlim.1 xlim.2 n) mf = .ok dfs ∧
      out.domain = linspace xlim.1 xlim.2 n ∧
      out.fig = { xlimit := xlim, ylimit := ylim, titleText := truthyStr t,
                  xlabelText := truthyStr xl, ylabelText := truthyStr yl,
                  lineData := (([] : List ℚ), ([] : List ℚ)), closed := true } ∧
      out.video = (if gif then none else some dfs) ∧
      out.files = (if gif then
        [{ path := fg.name ++ ".gif", writer := "imagemagick", frames := dfs }]
        else []) ∧
      out.intervalMs = delay ∧
      out.rcAnimationHtml = (if gif then rc else ("html5")) := by
  cases gif <;>
    · simp only [plot_anim, Bool.false_eq_true, if_true, if_false] at h
      cases hr : renderAnimation fg (linspace xlim.1 xlim.2 n) mf with
      | error e => rw [hr] at h; cases h
      | ok dfs =>
        rw [hr] at h
        cases h
        exact ⟨dfs, rfl, rfl, rfl, rfl, rfl, rfl, rfl⟩

theorem plot_anim_err (fg : FrameGen) (xlim ylim : ℚ × ℚ) (n delay mf : ℕ)
    (t xl yl : Option String) (gif : Bool) (rc : String) (e : String)
    (h : renderAnimation fg (linspace xlim.1 xlim.2 n) mf = .error e) :
    plot_anim fg xlim ylim n delay mf t xl yl gif rc = .error e := by
  cases gif <;> simp [plot_anim, h]

theorem isError_exists {α : Type} (r : Except String α) (h : isError r = true) :
    ∃ e, r = .error e := by
  cases r with
  | error e => exact ⟨e, rfl⟩
  | ok v => simp [isError] at h

theorem linspace_eval_two : linspace 0 1 2 = [0, 1] := by
  simp [linspace, List.range_succ]; norm_num

theorem linspace_eval_deg : linspace 2 2 5 = [2, 2, 2, 2, 2] := by
  rw [linspace_const]; rfl

theorem linspace_eval_three : linspace 0 1 3 = [0, 1/2, 1] := by
  simp [linspace, List.range_succ]; norm_num

/-! ## Claims -/

/-- Claim C1, as frozen, is false at `n = 1`: `np.linspace(0, 5, 1)` is
`[0]`, the lower bound, not the upper bound `5` the claim names.  The
call below succeeds and hands the Frame Producer the one-entry domain
`[0]`. -/
theorem C1_counterexample :
    (plot_anim waveGen (0, 5) (0, 1) 1 20 2 none none none false ("none")).map
        AnimOutput.domain = .ok [(0 : ℚ)] ∧ (0 : ℚ) ≠ 5 := by
  refine ⟨?_, by norm_num⟩
  rfl

/-- Claim C1 (amended): for every successful call the Domain Sequence
handed to the Frame Producer is `linspace xlim.1 xlim.2 n`: it has
exactly `n` entries; entry `i` equals `a + i*(b-a)/(n-1)` when `n ≥ 2`
(so the entries are evenly spaced between `a` and `b` inclusive); and
when `n = 1` the single entry equals the lower bound `a`, not `b`. -/
theorem C1_domain_sequence (fg : FrameGen) (xlim ylim : ℚ × ℚ) (n delay mf : ℕ)
    (t xl yl : Option String) (gif : Bool) (rc : String) (out : AnimOutput)
    (h : plot_anim fg xlim ylim n delay mf t xl yl gif rc = .ok out) :
    out.domain = linspace xlim.1 xlim.2 n ∧
    out.domain.length = n ∧
    (n = 1 → out.domain = [xlim.1]) ∧
    ∀ i (hi : i < out.domain.length), 2 ≤ n →
      out.domain.get ⟨i, hi⟩ = xlim.1 + (i : ℚ) * (xlim.2 - xlim.1) / ((n : ℚ) - 1) := by
  obtain ⟨dfs, hr, hd, _⟩ := plot_anim_ok_elim fg xlim ylim n delay mf t xl yl gif rc out h
  refine ⟨hd, ?_, ?_, ?_⟩
  · rw [hd, linspace_length]
  · intro h1
    subst h1
    rw [hd, linspace_single]
  · intro i hi h2
    rw [List.get_of_eq hd]
    exact linspace_get _ _ _ h2 i _

/-- Witness for C1: the call with `n = 3` over `(0, 1)` succeeds and its
middle domain entry satisfies the even-spacing formula. -/
theorem C1_witness :
    ([(0 : ℚ), 1/2, 1] : List ℚ).get ⟨1, by norm_num⟩ =
      0 + ((1 : ℕ) : ℚ) * (1 - 0) / (((3 : ℕ) : ℚ) - 1) := by
  have h : plot_anim waveGen (0, 1) (0, 1) 3 20 3 none none none false ("none") =
      .ok { domain := [0, 1/2, 1],
            fig := { xlimit := (0, 1), ylimit := (0, 1), titleText := none,
                     xlabelText := none, ylabelText := none,
                     lineData := ([], []), closed := true },
            video := some [([0, 1/2, 1], [0, 1/2, 1]), ([0, 1/2, 1], [0, 1/2, 1])],
            files := [], intervalMs := 20, rcAnimationHtml := "html5" } := by
    simp [plot_anim, renderAnimation, renderFrames, drawLine, animate, init_frame,
          waveGen, truthyStr, linspace_eval_three]
  exact (C1_domain_sequence waveGen (0, 1) (0, 1) 3 20 3 none none none false
      "none" _ h).2.2.2 1 (by decide) (by norm_num)

/-- Claim C2: every successful gif-path call writes exactly the file
`<producer_name>.gif` through the imagemagick writer and returns no
video object. -/
theorem C2_gif_output (fg : FrameGen) (xlim ylim : ℚ × ℚ) (n delay mf : ℕ)
    (t xl yl : Option String) (rc : String) (out : AnimOutput)
    (h : plot_anim fg xlim ylim n delay mf t xl yl true rc = .ok out) :
    out.files.map GifFile.path = [fg.name ++ ".gif"] ∧
    out.files.map GifFile.writer = ["imagemagick"] ∧
    out.video = none := by
  obtain ⟨dfs, _, _, _, hv, hf, _, _⟩ :=
    plot_anim_ok_elim fg xlim ylim n delay mf t xl yl true rc out h
  simp only [if_true] at hv hf
  simp [hf, hv]

/-- Witness for C2: a concrete gif-path call writing `waveGen.gif`. -/
theorem C2_witness :
    ([{ path := "waveGen.gif", writer := "imagemagick",
        frames := [([(0 : ℚ)], [(0 : ℚ)]), ([0], [0])] }] : List GifFile).map
      GifFile.path = [waveGen.name ++ ".gif"] := by
  have h : plot_anim waveGen (0, 1) (0, 1) 1 20 2 none none none true ("none") =
      .ok { domain := [0],
            fig := { xlimit := (0, 1), ylimit := (0, 1), titleText := none,
                     xlabelText := none, ylabelText := none,
                     lineData := ([], []), closed := true },
            video := none,
            files := [{ path := "waveGen.gif", writer := "imagemagick",
                        frames := [([0], [0]), ([0], [0])] }],
            intervalMs := 20, rcAnimationHtml := "none" } := rfl
  exact (C2_gif_output waveGen (0, 1) (0, 1) 1 20 2 none none none ("none") _ h).1

/-- Claim C3, as frozen, is false: a producer that yields `k = 1 ≤
max_frames` frames but of the wrong length makes the non-file call raise
the plotting layer's length-mismatch error instead of returning a video
object. -/
theorem C3_counterexample :
    badLenGen.gen (linspace 0 1 2) = .ok [[0]] ∧
    plot_anim badLenGen (0, 1) (0, 1) 2 20 2 none none none false ("none") =
      .error ("x and y must have same first dimension") := by
  refine ⟨rfl, ?_⟩
  simp [plot_anim, renderAnimation, renderFrames, drawLine, animate, init_frame,
        badLenGen, truthyStr, linspace_eval_two]

/-- Claim C3 (amended): when the producer yields exactly `k` frames with
`k ≤ max_frames`, each of length `sample_count`, the non-file call
returns the embeddable video (one drawn frame per yielded frame) and
writes no files. -/
theorem C3_html_output (fg : FrameGen) (xlim ylim : ℚ × ℚ) (n delay mf : ℕ)
    (t xl yl : Option String) (rc : String) (fs : List (List ℚ))
    (hg : fg.gen (linspace xlim.1 xlim.2 n) = .ok fs)
    (hk : fs.length ≤ mf)
    (hlen : ∀ y ∈ fs, y.length = n) :
    plot_anim fg xlim ylim n delay mf t xl yl false rc =
      .ok { domain := linspace xlim.1 xlim.2 n,
            fig := { xlimit := xlim, ylimit := ylim, titleText := truthyStr t,
                     xlabelText := truthyStr xl, ylabelText := truthyStr yl,
                     lineData := ([], []), closed := true },
            video := some (fs.map fun y => (linspace xlim.1 xlim.2 n, y)),
            files := [], intervalMs := delay, rcAnimationHtml := "html5" } := by
  have hrf : renderFrames (linspace xlim.1 xlim.2 n) fs =
      .ok (fs.map fun y => (linspace xlim.1 xlim.2 n, y)) :=
    renderFrames_ok _ _ (fun y hy => by rw [linspace_length]; exact hlen y hy)
  have hra : renderAnimation fg (linspace xlim.1 xlim.2 n) mf =
      .ok (fs.map fun y => (linspace xlim.1 xlim.2 n, y)) := by
    rw [renderAnimation_gen_ok fg _ mf fs hg, List.take_of_length_le hk, hrf]
  simp [plot_anim, hra]

/-- Witness for C3: a concrete well-formed non-file call returning a
two-frame video and writing nothing. -/
theorem C3_witness :
    plot_anim waveGen (0, 1) (0, 1) 1 20 2 none none none false ("none") =
      .ok { domain := [0],
            fig := { xlimit := (0, 1), ylimit := (0, 1), titleText := none,
                     xlabelText := none, ylabelText := none,
                     lineData := ([], []), closed := true },
            video := some [([0], [0]), ([0], [0])],
            files := [], intervalMs := 20, rcAnimationHtml := "html5" } := by
  have := C3_html_output waveGen (0, 1) (0, 1) 1 20 2 none none none ("none")
    [[0], [0]] rfl (by norm_num) (by decide)
  simpa using this

/-- Claim C4: the initialization step clears the line artist to empty
data and reports it changed; the per-frame update step sets the line's
data to `(Domain Sequence, yielded sequence)` and reports exactly that
line as changed; and in every frame of a rendered animation the first
component is the same Domain Sequence. -/
theorem C4_frame_steps :
    init_frame = ((([] : List ℚ), ([] : List ℚ)), [(([] : List ℚ), ([] : List ℚ))]) ∧
    (∀ x y : List ℚ, animate x y = ((x, y), [(x, y)])) ∧
    (∀ (fg : FrameGen) (x : List ℚ) (mf : ℕ) (dfs : List (List ℚ × List ℚ)),
      renderAnimation fg x mf = .ok dfs → ∀ p ∈ dfs, p.1 = x) :=
  ⟨rfl, fun _ _ => rfl, renderAnimation_fst⟩

/-- Witness for C4: in a rendered two-frame animation over domain `[0]`
each drawn frame carries the domain `[0]` as its first component. -/
theorem C4_witness : (([(0 : ℚ)], [(0 : ℚ)]) : List ℚ × List ℚ).1 = [0] := by
  have h : renderAnimation waveGen [0] 2 = .ok [([0], [0]), ([0], [0])] := rfl
  exact C4_frame_steps.2.2 waveGen [0] 2 _ h ([0], [0]) (by simp)

/-- Claim C5, as frozen, is false: a degenerate `domain_range` with
min = max produces no error at all (matplotlib only warns on identical
axis limits, and `np.linspace(2, 2, 5)` is the constant array), and
`sample_count = 0` with a producer yielding empty frames also succeeds
silently. -/
theorem C5_counterexample :
    plot_anim constFiveGen (2, 2) (0, 1) 5 20 2 none none none false ("none") =
      .ok { domain := [2, 2, 2, 2, 2],
            fig := { xlimit := (2, 2), ylimit := (0, 1), titleText := none,
                     xlabelText := none, ylabelText := none,
                     lineData := ([], []), closed := true },
            video := some [([2, 2, 2, 2, 2], [1, 1, 1, 1, 1])],
            files := [], intervalMs := 20, rcAnimationHtml := "html5" } ∧
    plot_anim emptyFramesGen (0, 1) (0, 1) 0 20 2 none none none false ("none") =
      .ok { domain := [],
            fig := { xlimit := (0, 1), ylimit := (0, 1), titleText := none,
                     xlabelText := none, ylabelText := none,
                     lineData := ([], []), closed := true },
            video := some [([], []), ([], [])],
            files := [], intervalMs := 20, rcAnimationHtml := "html5" } := by
  constructor
  · simp [plot_anim, renderAnimation, renderFrames, drawLine, animate, init_frame,
          constFiveGen, truthyStr, linspace_eval_deg]
  · rfl

/-- Claim C5 (amended): `sample_count = 0` yields an empty Domain
Sequence, and the call then errors exactly when the Frame Producer
yields a nonempty frame among the first `max_frames` (the plotting
layer's length mismatch); with all-empty frames it succeeds silently.  A
degenerate `domain_range` (min = max) causes no error by itself: the
Domain Sequence is the constant min-value array. -/
theorem C5_degenerate (a b : ℚ) (m : ℕ) (fg : FrameGen) (xlim ylim : ℚ × ℚ)
    (delay mf : ℕ) (t xl yl : Option String) (gif : Bool) (rc : String)
    (fs : List (List ℚ)) (y : List ℚ) :
    linspace a a m = List.replicate m a ∧
    linspace a b 0 = [] ∧
    (fg.gen (linspace xlim.1 xlim.2 0) = .ok fs → y ∈ fs.take mf → y ≠ [] →
      isError (plot_anim fg xlim ylim 0 delay mf t xl yl gif rc) = true) ∧
    (fg.gen (linspace xlim.1 xlim.2 0) = .ok fs → (∀ z ∈ fs, z = []) →
      isError (plot_anim fg xlim ylim 0 delay mf t xl yl gif rc) = false) := by
  refine ⟨linspace_const a m, linspace_empty a b, ?_, ?_⟩
  · intro hg hy hne
    have hlen : y.length ≠ (linspace xlim.1 xlim.2 0).length := by
      rw [linspace_empty]
      simpa using hne
    have herr := renderFrames_err (linspace xlim.1 xlim.2 0) y (fs.take mf) hy hlen
    rw [← renderAnimation_gen_ok fg _ mf fs hg] at herr
    obtain ⟨e, he⟩ := isError_exists _ herr
    rw [plot_anim_err fg xlim ylim 0 delay mf t xl yl gif rc e he]
    rfl
  · intro hg hall
    have hlen : ∀ z ∈ fs, z.length = (linspace xlim.1 xlim.2 0).length := by
      intro z hz
      rw [linspace_empty, hall z hz]
    have hrf := renderFrames_ok (linspace xlim.1 xlim.2 0) (fs.take mf)
      (fun z hz => hlen z (List.mem_of_mem_take hz))
    have hra := renderAnimation_gen_ok fg _ mf fs hg
    rw [hrf] at hra
    cases gif <;> simp [plot_anim, hra, isError]

/-- Witness for C5: with `sample_count = 0`, a producer yielding a
nonempty frame errors while one yielding only empty frames succeeds. -/
theorem C5_witness :
    isError (plot_anim badLenGen (0, 1) (0, 1) 0 20 2 none none none false ("none"))
        = true ∧
    isError (plot_anim emptyFramesGen (0, 1) (0, 1) 0 20 2 none none none false
        "none") = false := by
  constructor
  · exact (C5_degenerate 0 1 0 badLenGen (0, 1) (0, 1) 20 2 none none none false
      "none" [[0]] [0]).2.2.1 rfl (by simp) (by simp)
  · exact (C5_degenerate 0 1 0 emptyFramesGen (0, 1) (0, 1) 20 2 none none none
      false ("none") [[], []] []).2.2.2 rfl (by simp)

/-- Claim C6, as frozen, is false: a frame of mismatched length that
lies beyond `max_frames` is never pulled by the engine, so the call
succeeds with the mismatch silently dropped rather than propagating an
error. -/
theorem C6_counterexample :
    lateBadGen.gen (linspace 0 1 2) = .ok [[0, 1], [9]] ∧
    plot_anim lateBadGen (0, 1) (0, 1) 2 20 1 none none none false ("none") =
      .ok { domain := [0, 1],
            fig := { xlimit := (0, 1), ylimit := (0, 1), titleText := none,
                     xlabelText := none, ylabelText := none,
                     lineData := ([], []), closed := true },
            video := some [([0, 1], [0, 1])],
            files := [], intervalMs := 20, rcAnimationHtml := "html5" } := by
  refine ⟨rfl, ?_⟩
  simp [plot_anim, renderAnimation, renderFrames, drawLine, animate, init_frame,
        lateBadGen, truthyStr, linspace_eval_two]

/-- Claim C6 (amended): if the Frame Producer yields, among the first
`max_frames` frames the engine consumes, a range-value sequence whose
length differs from `sample_count`, the call errors (the plotting
layer's length mismatch); the frame is never truncated or padded. -/
theorem C6_mismatch_error (fg : FrameGen) (xlim ylim : ℚ × ℚ) (n delay mf : ℕ)
    (t xl yl : Option String) (gif : Bool) (rc : String)
    (fs : List (List ℚ)) (y : List ℚ)
    (hg : fg.gen (linspace xlim.1 xlim.2 n) = .ok fs)
    (hy : y ∈ fs.take mf) (hl : y.length ≠ n) :
    isError (plot_anim fg xlim ylim n delay mf t xl yl gif rc) = true := by
  have hl' : y.length ≠ (linspace xlim.1 xlim.2 n).length := by
    rw [linspace_length]; exact hl
  have herr := renderFrames_err (linspace xlim.1 xlim.2 n) y (fs.take mf) hy hl'
  rw [← renderAnimation_gen_ok fg _ mf fs hg] at herr
  obtain ⟨e, he⟩ := isError_exists _ herr
  rw [plot_anim_err fg xlim ylim n delay mf t xl yl gif rc e he]
  rfl

/-- Witness for C6: a producer yielding a length-1 frame against
`sample_count = 2` makes the call error. -/
theorem C6_witness :
    isError (plot_anim badLenGen (0, 1) (0, 1) 2 20 2 none none none false ("none"))
      = true :=
  C6_mismatch_error badLenGen (0, 1) (0, 1) 2 20 2 none none none false ("none")
    [[0]] [0] rfl (by simp) (by norm_num)

/-- Claim C7: the adapter catches, retries and translates nothing: a
failure raised while the Frame Producer is consumed, or while the
plotting layer draws a frame, surfaces to the caller verbatim, on either
output path. -/
theorem C7_errors_propagate (fg : FrameGen) (xlim ylim : ℚ × ℚ) (n delay mf : ℕ)
    (t xl yl : Option String) (gif : Bool) (rc : String) (e : String)
    (fs : List (List ℚ)) :
    (fg.gen (linspace xlim.1 xlim.2 n) = .error e →
      plot_anim fg xlim ylim n delay mf t xl yl gif rc = .error e) ∧
    (fg.gen (linspace xlim.1 xlim.2 n) = .ok fs →
      renderFrames (linspace xlim.1 xlim.2 n) (fs.take mf) = .error e →
      plot_anim fg xlim ylim n delay mf t xl yl gif rc = .error e) := by
  constructor
  · intro hg
    exact plot_anim_err _ _ _ _ _ _ _ _ _ _ _ _ (renderAnimation_gen_err fg _ mf e hg)
  · intro hg hr
    have hra := renderAnimation_gen_ok fg _ mf fs hg
    rw [hr] at hra
    exact plot_anim_err _ _ _ _ _ _ _ _ _ _ _ _ hra

/-- Witness for C7: a producer failing with `"boom"` surfaces exactly
`"boom"` to the caller. -/
theorem C7_witness :
    plot_anim failGen (0, 1) (0, 1) 1 20 2 none none none true ("none") =
      .error ("boom") :=
  (C7_errors_propagate failGen (0, 1) (0, 1) 1 20 2 none none none true ("none")
    ("boom") []).1 rfl

/-- Claim C8: every successful call tears the figure down before
returning and produces exactly one output artifact: either a video
object and no files, or no video and exactly one written file. -/
theorem C8_one_artifact (fg : FrameGen) (xlim ylim : ℚ × ℚ) (n delay mf : ℕ)
    (t xl yl : Option String) (gif : Bool) (rc : String) (out : AnimOutput)
    (h : plot_anim fg xlim ylim n delay mf t xl yl gif rc = .ok out) :
    out.fig.closed = true ∧
    ((out.video.isSome = true ∧ out.files = []) ∨
      (out.video = none ∧ out.files.length = 1)) := by
  obtain ⟨dfs, _, _, hfig, hv, hf, _, _⟩ :=
    plot_anim_ok_elim fg xlim ylim n delay mf t xl yl gif rc out h
  refine ⟨by rw [hfig], ?_⟩
  cases gif
  · left
    simp only [Bool.false_eq_true, if_false] at hv hf
    simp [hv, hf]
  · right
    simp only [if_true] at hv hf
    simp [hv, hf]

/-- Witness for C8: the figure of a concrete successful non-file call is
closed. -/
theorem C8_witness :
    ({ domain := [(0 : ℚ)],
       fig := { xlimit := (0, 1), ylimit := (0, 1), titleText := none,
                xlabelText := none, ylabelText := none,
                lineData := ([], []), closed := true },
       video := some [([0], [0]), ([0], [0])],
       files := [], intervalMs := 20,
       rcAnimationHtml := "html5" } : AnimOutput).fig.closed = true := by
  have h : plot_anim waveGen (0, 1) (0, 1) 1 20 2 none none none false ("none") =
      .ok { domain := [0],
            fig := { xlimit := (0, 1), ylimit := (0, 1), titleText := none,
                     xlabelText := none, ylabelText := none,
                     lineData := ([], []), closed := true },
            video := some [([0], [0]), ([0], [0])],
            files := [], intervalMs := 20, rcAnimationHtml := "html5" } := rfl
  exact (C8_one_artifact waveGen (0, 1) (0, 1) 1 20 2 none none none false ("none")
    _ h).1

/-- Claim C9, as frozen, is false: the non-file path runs
`rc("animation", html="html5")`, which mutates matplotlib's
process-global rc configuration, and that mutation persists after the
call returns.  A call entered with the global at `"none"` leaves it at
`"html5"`. -/
theorem C9_counterexample :
    (plot_anim waveGen (0, 1) (0, 1) 1 20 2 none none none false ("none")).map
      AnimOutput.rcAnimationHtml = .ok ("html5") ∧ "html5" ≠ "none" := by
  exact ⟨rfl, by decide⟩

/-- Claim C9 (amended): apart from a written output file in the file
path and the process-global `animation.html` rc setting, which the
non-file path sets to `"html5"`, no state persists across calls: the
file path leaves the global untouched, and no observable of a call
other than that global depends on the value a previous call left in
it (the figure is created fresh and closed within each call). -/
theorem C9_rc_global (fg : FrameGen) (xlim ylim : ℚ × ℚ) (n delay mf : ℕ)
    (t xl yl : Option String) (gif : Bool) (rc1 rc2 : String) :
    (∀ out, plot_anim fg xlim ylim n delay mf t xl yl true rc1 = .ok out →
      out.rcAnimationHtml = rc1) ∧
    (∀ out, plot_anim fg xlim ylim n delay mf t xl yl false rc1 = .ok out →
      out.rcAnimationHtml = "html5") ∧
    (plot_anim fg xlim ylim n delay mf t xl yl gif rc1).map
        (fun o => { o with rcAnimationHtml := "" }) =
      (plot_anim fg xlim ylim n delay mf t xl yl gif rc2).map
        (fun o => { o with rcAnimationHtml := "" }) := by
  refine ⟨?_, ?_, ?_⟩
  · intro out h
    obtain ⟨dfs, _, _, _, _, _, _, hrc⟩ :=
      plot_anim_ok_elim fg xlim ylim n delay mf t xl yl true rc1 out h
    simpa using hrc
  · intro out h
    obtain ⟨dfs, _, _, _, _, _, _, hrc⟩ :=
      plot_anim_ok_elim fg xlim ylim n delay mf t xl yl false rc1 out h
    simpa using hrc
  · cases gif <;>
      · simp only [plot_anim]
        cases hr : renderAnimation fg (linspace xlim.1 xlim.2 n) mf <;>
          simp [hr, Except.map]

/-- Witness for C9: the file path leaves the incoming global `"none"`
unchanged. -/
theorem C9_witness :
    (plot_anim waveGen (0, 1) (0, 1) 1 20 2 none none none true ("none")).map
      AnimOutput.rcAnimationHtml = .ok ("none") := by
  have h : plot_anim waveGen (0, 1) (0, 1) 1 20 2 none none none true ("none") =
      .ok { domain := [0],
            fig := { xlimit := (0, 1), ylimit := (0, 1), titleText := none,
                     xlabelText := none, ylabelText := none,
                     lineData := ([], []), closed := true },
            video := none,
            files := [{ path := "waveGen.gif", writer := "imagemagick",
                        frames := [([0], [0]), ([0], [0])] }],
            intervalMs := 20, rcAnimationHtml := "none" } := rfl
  have hrc := (C9_rc_global waveGen (0, 1) (0, 1) 1 20 2 none none none true
    "none" "none").1 _ h
  rw [h]
  exact congrArg Except.ok hrc

/-- Claim C10: a falsy decoration argument (the empty string) is treated
exactly as an omitted one and left unset on the figure; a truthy
(nonempty) string is applied as given. -/
theorem C10_falsy_decorations (fg : FrameGen) (xlim ylim : ℚ × ℚ) (n delay mf : ℕ)
    (gif : Bool) (rc : String) :
    plot_anim fg xlim ylim n delay mf (some ("")) (some ("")) (some ("")) gif rc =
      plot_anim fg xlim ylim n delay mf none none none gif rc ∧
    (∀ t xl yl out,
      plot_anim fg xlim ylim n delay mf (some t) (some xl) (some yl) gif rc =
        .ok out →
      out.fig.titleText = (if t = "" then none else some t) ∧
      out.fig.xlabelText = (if xl = "" then none else some xl) ∧
      out.fig.ylabelText = (if yl = "" then none else some yl)) := by
  constructor
  · cases gif <;> simp [plot_anim, truthyStr]
  · intro t xl yl out h
    obtain ⟨dfs, _, _, hfig, _⟩ :=
      plot_anim_ok_elim fg xlim ylim n delay mf (some t) (some xl) (some yl) gif
        rc out h
    rw [hfig]
    exact ⟨rfl, rfl, rfl⟩

/-- Witness for C10: a call with title `"T"`, empty x-label and y-label
`"Y"` sets the title, leaves the x-label unset, and sets the y-label. -/
theorem C10_witness :
    ({ xlimit := ((0 : ℚ), (1 : ℚ)), ylimit := ((0 : ℚ), (1 : ℚ)),
       titleText := some ("T"), xlabelText := none, ylabelText := some ("Y"),
       lineData := ([], []), closed := true } : PlotState).titleText = some ("T") := by
  have h : plot_anim waveGen (0, 1) (0, 1) 1 20 2 (some ("T")) (some ("")) (some ("Y"))
      false ("none") =
      .ok { domain := [0],
            fig := { xlimit := (0, 1), ylimit := (0, 1), titleText := some ("T"),
                     xlabelText := none, ylabelText := some ("Y"),
                     lineData := ([], []), closed := true },
            video := some [([0], [0]), ([0], [0])],
            files := [], intervalMs := 20, rcAnimationHtml := "html5" } := rfl
  exact ((C10_falsy_decorations waveGen (0, 1) (0, 1) 1 20 2 false ("none")).2
    "T" "" "Y" _ h).1.trans (by decide)
